import Mathlib

/-!
Verification of the EmpireAPI tower-tracking service (`src/app.py`).

The development shallowly embeds the Python source: the pure `haversine`
distance function is modelled over the real numbers, and the Flask request
handlers (`create_tower`, `create_user`, `get_tower`, `get_user`,
`get_towers_by_user_id`) are modelled as functions from an explicit store
state and a decoded request body to a response together with the next
store state.  The SQLite-backed store is modelled as lists of rows plus
auto-increment counters.
-/

namespace EmpireAPI

open Real

/-- `math.radians`: degrees to radians, `x * pi / 180`. -/
noncomputable def radians (x : ℝ) : ℝ := x * Real.pi / 180

/-- The `haversine` function of `src/app.py` lines 15-25: convert the four
decimal-degree inputs to radians, apply the haversine formula with Earth
radius 6371 km. -/
noncomputable def haversine (lat1 lon1 lat2 lon2 : ℝ) : ℝ :=
  let lat1r := radians lat1
  let lon1r := radians lon1
  let lat2r := radians lat2
  let lon2r := radians lon2
  let dlon := lon2r - lon1r
  let dlat := lat2r - lat1r
  let a := Real.sin (dlat/2)^2 + Real.cos lat1r * Real.cos lat2r * Real.sin (dlon/2)^2
  let c := 2 * Real.arcsin (Real.sqrt a)
  let r : ℝ := 6371
  c * r

/-- The Distance Calculator exactly as the specification words it:
convert all four inputs to radians; `dlat = lat2-lat1`, `dlon = lon2-lon1`;
`a = sin²(dlat/2) + cos(lat1)·cos(lat2)·sin²(dlon/2)`; `c = 2·asin(√a)`;
`distance = 6371·c`. -/
noncomputable def haversine_spec (lat1 lon1 lat2 lon2 : ℝ) : ℝ :=
  let dlat := radians lat2 - radians lat1
  let dlon := radians lon2 - radians lon1
  let a := Real.sin (dlat/2)^2 +
    Real.cos (radians lat1) * Real.cos (radians lat2) * Real.sin (dlon/2)^2
  let c := 2 * Real.arcsin (Real.sqrt a)
  6371 * c

/-! ## Data model and store state

`User` and `Tower` mirror the two SQLAlchemy models; the store is the pair
of tables together with the auto-increment counters SQLite uses for the
integer primary keys (fresh ids start at 1 and grow by one per insert;
nothing is ever deleted). -/

/-- Row of the `user` table (`src/app.py` lines 28-32). -/
structure User where
  id : Nat
  first_name : String
  last_name : String
  email : String
deriving DecidableEq

/-- Row of the `tower` table (`src/app.py` lines 43-48). -/
structure Tower where
  id : Nat
  latitude : ℝ
  longitude : ℝ
  user_id : Nat

/-- The persistent state: both tables plus the next auto-increment ids. -/
structure Store where
  users : List User
  towers : List Tower
  nextUserId : Nat
  nextTowerId : Nat

/-- The state right after `db.create_all()` on a fresh database. -/
def Store.empty : Store := ⟨[], [], 1, 1⟩

/-- A JSON value bound to `latitude`/`longitude` in a request body: either
one that Python's `float(...)` converts to a number, or one on which
`float` raises `ValueError`/`TypeError`. -/
inductive NumInput where
  | val (x : ℝ)
  | unparseable

/-- Decoded body of a `POST /towers` request; absent keys are `none`. -/
structure TowerReq where
  latitude : Option NumInput
  longitude : Option NumInput
  user_id : Option Nat

/-- Decoded body of a `POST /users` request; absent keys are `none`. -/
structure UserReq where
  first_name : Option String
  last_name : Option String
  email : Option String

/-- Outcome of `create_tower`, one constructor per `return` site. -/
inductive CTResp where
  | missingFields
  | invalidCoords
  | notNumbers
  | userNotFound
  | conflict
  | created (t : Tower)

/-- HTTP status attached to each `create_tower` outcome. -/
def CTResp.status : CTResp → Nat
  | .missingFields => 400
  | .invalidCoords => 400
  | .notNumbers => 400
  | .userNotFound => 404
  | .conflict => 400
  | .created _ => 201

/-- Outcome of `create_user`, one constructor per `return` site. -/
inductive CUResp where
  | missingFields
  | emailExists
  | created (u : User)

/-- HTTP status attached to each `create_user` outcome. -/
def CUResp.status : CUResp → Nat
  | .missingFields => 400
  | .emailExists => 400
  | .created _ => 201

/-- Outcome of a fetch-by-id endpoint. -/
inductive GetResp (α : Type) where
  | ok (x : α)
  | notFound

/-- HTTP status of a fetch-by-id outcome. -/
def GetResp.status {α : Type} : GetResp α → Nat
  | .ok _ => 200
  | .notFound => 404

/-- The proximity scan of `create_tower` (`src/app.py` lines 98-100): walk
the full tower table and stop at the first tower whose haversine distance
to the candidate `(lat, lon)` is below `1.0` km.  Note the argument order:
the stored tower's coordinates come first, as in the source. -/
def anyTowerWithin1km : List Tower → ℝ → ℝ → Prop
  | [], _, _ => False
  | t :: ts, lat, lon =>
    haversine t.latitude t.longitude lat lon < 1 ∨ anyTowerWithin1km ts lat lon

open Classical in
/-- `POST /towers` (`src/app.py` lines 78-105): missing-field check, float
parsing, range check, user lookup, proximity scan, then insert. -/
noncomputable def create_tower (s : Store) (data : Option TowerReq) :
    CTResp × Store :=
  match data with
  | none => (.missingFields, s)
  | some d =>
    match d.latitude, d.longitude, d.user_id with
    | some latIn, some lonIn, some uid =>
      match latIn, lonIn with
      | .val lat, .val lon =>
        if (-90 ≤ lat ∧ lat ≤ 90) ∧ (-180 ≤ lon ∧ lon ≤ 180) then
          match s.users.find? (fun u => u.id == uid) with
          | some _ =>
            if anyTowerWithin1km s.towers lat lon then
              (.conflict, s)
            else
              (.created ⟨s.nextTowerId, lat, lon, uid⟩,
                { s with towers := s.towers ++ [⟨s.nextTowerId, lat, lon, uid⟩],
                         nextTowerId := s.nextTowerId + 1 })
          | none => (.userNotFound, s)
        else (.invalidCoords, s)
      | _, _ => (.notNumbers, s)
    | _, _, _ => (.missingFields, s)

/-- `POST /users` (`src/app.py` lines 108-125): missing-field check,
duplicate-email check (exact string equality), then insert. -/
def create_user (s : Store) (data : Option UserReq) : CUResp × Store :=
  match data with
  | none => (.missingFields, s)
  | some d =>
    match d.first_name, d.last_name, d.email with
    | some fn, some ln, some em =>
      if s.users.any (fun u => u.email == em) then (.emailExists, s)
      else
        (.created ⟨s.nextUserId, fn, ln, em⟩,
          { s with users := s.users ++ [⟨s.nextUserId, fn, ln, em⟩],
                   nextUserId := s.nextUserId + 1 })
    | _, _, _ => (.missingFields, s)

/-- `GET /towers/{id}` (`src/app.py` lines 70-75): primary-key lookup. -/
def get_tower (s : Store) (tower_id : Nat) : GetResp Tower :=
  match s.towers.find? (fun t => t.id == tower_id) with
  | some t => .ok t
  | none => .notFound

/-- `GET /users/{id}` (`src/app.py` lines 134-139): primary-key lookup. -/
def get_user (s : Store) (user_id : Nat) : GetResp User :=
  match s.users.find? (fun u => u.id == user_id) with
  | some u => .ok u
  | none => .notFound

/-- `GET /users/{id}/towers` (`src/app.py` lines 142-147): filter the tower
table by `user_id`; always status 200. -/
def get_towers_by_user_id (s : Store) (user_id : Nat) : List Tower × Nat :=
  (s.towers.filter (fun t => t.user_id == user_id), 200)

/-- States reachable from the fresh database by any sequence of create
requests (failed requests leave the store unchanged, so including them
loses nothing). -/
inductive Reachable : Store → Prop where
  | init : Reachable Store.empty
  | step_user (s : Store) (d : Option UserReq) :
      Reachable s → Reachable (create_user s d).2
  | step_tower (s : Store) (d : Option TowerReq) :
      Reachable s → Reachable (create_tower s d).2

/-- Everything that holds of every reachable store: pairwise tower
separation, id freshness and creation-order monotonicity for both tables,
and referential integrity of `tower.user_id`. -/
structure Inv (s : Store) : Prop where
  towers_sep : s.towers.Pairwise
    (fun a b => ¬ haversine a.latitude a.longitude b.latitude b.longitude < 1)
  user_ids_lt : ∀ u ∈ s.users, u.id < s.nextUserId
  tower_ids_lt : ∀ t ∈ s.towers, t.id < s.nextTowerId
  user_ids_mono : s.users.Pairwise (fun a b => a.id < b.id)
  tower_ids_mono : s.towers.Pairwise (fun a b => a.id < b.id)
  towers_ref : ∀ t ∈ s.towers, ∃ u ∈ s.users, u.id = t.user_id

/-! ## Concrete states used to exercise the theorems -/

/-- A concrete first user, as created from a fresh database. -/
def userA : User := ⟨1, "Ada", "Lovelace", "ada@example.com"⟩

/-- A concrete tower at the origin, owned by `userA`. -/
def towerA : Tower := ⟨1, 0, 0, 1⟩

/-- A concrete antipodal tower, owned by `userA`. -/
def towerB : Tower := ⟨2, 0, 180, 1⟩

/-- Store after creating `userA`. -/
def store1 : Store := ⟨[userA], [], 2, 1⟩

/-- Store after additionally creating `towerA`. -/
def store2 : Store := ⟨[userA], [towerA], 2, 2⟩

/-- Store after additionally creating `towerB`. -/
def store3 : Store := ⟨[userA], [towerA, towerB], 2, 3⟩

/-! ## Properties of the distance calculator -/

/-- Zero distance from a point to itself: the haversine argument `a`
degenerates to `0`. -/
theorem haversine_self (lat lon : ℝ) : haversine lat lon lat lon = 0 := by
  unfold haversine
  simp

/-- The haversine distance is symmetric in its two points. -/
theorem haversine_comm (lat1 lon1 lat2 lon2 : ℝ) :
    haversine lat1 lon1 lat2 lon2 = haversine lat2 lon2 lat1 lon1 := by
  unfold haversine
  have hsin : ∀ x y : ℝ, Real.sin ((x - y)/2)^2 = Real.sin ((y - x)/2)^2 := by
    intro x y
    have : (x - y)/2 = -((y - x)/2) := by ring
    rw [this, Real.sin_neg]
    ring
  simp only
  rw [hsin (radians lat1) (radians lat2), hsin (radians lon1) (radians lon2),
    mul_comm (Real.cos (radians lat2)) (Real.cos (radians lat1))]

/-- Let-free form of the haversine body, for calculation. -/
theorem haversine_eq_formula (lat1 lon1 lat2 lon2 : ℝ) :
    haversine lat1 lon1 lat2 lon2 =
    2 * Real.arcsin (Real.sqrt (Real.sin ((radians lat2 - radians lat1)/2)^2 +
      Real.cos (radians lat1) * Real.cos (radians lat2) *
      Real.sin ((radians lon2 - radians lon1)/2)^2)) * 6371 := rfl

/-- The fixture distance: `haversine 0 0 0 1` is `6371·π/180`. -/
theorem haversine_fixture_value : haversine 0 0 0 1 = 6371 * Real.pi / 180 := by
  have hnonneg : (0:ℝ) ≤ Real.sin (Real.pi / 360) := by
    apply Real.sin_nonneg_of_nonneg_of_le_pi
    · positivity
    · nlinarith [Real.pi_pos]
  have h0 : radians 0 = 0 := by simp [radians]
  have h1 : radians 1 = Real.pi / 180 := by
    unfold radians; ring
  rw [haversine_eq_formula, h0, h1]
  rw [show ((0:ℝ) - 0)/2 = 0 by ring, show (Real.pi/180 - 0)/2 = Real.pi/360 by ring]
  rw [Real.sin_zero, Real.cos_zero]
  rw [show (0:ℝ)^2 + 1 * 1 * Real.sin (Real.pi/360)^2 = Real.sin (Real.pi/360)^2 by ring]
  rw [Real.sqrt_sq hnonneg]
  rw [Real.arcsin_sin (by nlinarith [Real.pi_pos]) (by nlinarith [Real.pi_pos])]
  ring

/-- The distance between `(0,0)` and its antipodal meridian point `(0,180)`
is half the Earth's circumference, `6371·π`. -/
theorem haversine_antipodal : haversine 0 0 0 180 = 6371 * Real.pi := by
  have h0 : radians 0 = 0 := by simp [radians]
  have h180 : radians 180 = Real.pi := by
    unfold radians; ring
  rw [haversine_eq_formula, h0, h180]
  rw [show ((0:ℝ) - 0)/2 = 0 by ring, show (Real.pi - 0)/2 = Real.pi/2 by ring]
  rw [Real.sin_zero, Real.cos_zero, Real.sin_pi_div_two]
  rw [show (0:ℝ)^2 + 1 * 1 * (1:ℝ)^2 = 1 by ring]
  rw [Real.sqrt_one, Real.arcsin_one]
  ring

theorem haversine_antipodal_ge_one : 1 ≤ haversine 0 0 0 180 := by
  rw [haversine_antipodal]
  nlinarith [Real.pi_gt_d6]

theorem anyTowerWithin1km_iff (ts : List Tower) (lat lon : ℝ) :
    anyTowerWithin1km ts lat lon ↔
      ∃ t ∈ ts, haversine t.latitude t.longitude lat lon < 1 := by
  induction ts with
  | nil => simp [anyTowerWithin1km]
  | cons t ts ih => simp [anyTowerWithin1km, ih]

/-! ## Branch lemmas for the handlers -/

theorem create_tower_no_body (s : Store) :
    create_tower s none = (.missingFields, s) := rfl

theorem create_tower_missing_field (s : Store) (d : TowerReq)
    (h : d.latitude = none ∨ d.longitude = none ∨ d.user_id = none) :
    create_tower s (some d) = (.missingFields, s) := by
  obtain ⟨la, lo, ui⟩ := d
  simp only at h
  rcases la with _ | la <;> rcases lo with _ | lo <;> rcases ui with _ | ui <;>
    first
      | rfl
      | simp at h

theorem create_tower_unparseable (s : Store) (latIn lonIn : NumInput) (uid : Nat)
    (h : latIn = .unparseable ∨ lonIn = .unparseable) :
    create_tower s (some ⟨some latIn, some lonIn, some uid⟩) =
      (.notNumbers, s) := by
  rcases latIn with la | _ <;> rcases lonIn with lo | _ <;>
    first
      | rfl
      | simp at h

theorem create_tower_out_of_range (s : Store) (lat lon : ℝ) (uid : Nat)
    (h : ¬ ((-90 ≤ lat ∧ lat ≤ 90) ∧ (-180 ≤ lon ∧ lon ≤ 180))) :
    create_tower s (some ⟨some (.val lat), some (.val lon), some uid⟩) =
      (.invalidCoords, s) := by
  simp only [create_tower]
  rw [if_neg h]

theorem create_tower_user_missing (s : Store) (lat lon : ℝ) (uid : Nat)
    (hrange : (-90 ≤ lat ∧ lat ≤ 90) ∧ (-180 ≤ lon ∧ lon ≤ 180))
    (hu : s.users.find? (fun u => u.id == uid) = none) :
    create_tower s (some ⟨some (.val lat), some (.val lon), some uid⟩) =
      (.userNotFound, s) := by
  simp only [create_tower]
  rw [if_pos hrange, hu]

theorem create_tower_conflict (s : Store) (lat lon : ℝ) (uid : Nat) (u : User)
    (hrange : (-90 ≤ lat ∧ lat ≤ 90) ∧ (-180 ≤ lon ∧ lon ≤ 180))
    (hu : s.users.find? (fun v => v.id == uid) = some u)
    (hclose : anyTowerWithin1km s.towers lat lon) :
    create_tower s (some ⟨some (.val lat), some (.val lon), some uid⟩) =
      (.conflict, s) := by
  simp only [create_tower]
  rw [if_pos hrange, hu]
  simp only [if_pos hclose]

theorem create_tower_success (s : Store) (lat lon : ℝ) (uid : Nat) (u : User)
    (hrange : (-90 ≤ lat ∧ lat ≤ 90) ∧ (-180 ≤ lon ∧ lon ≤ 180))
    (hu : s.users.find? (fun v => v.id == uid) = some u)
    (hfar : ¬ anyTowerWithin1km s.towers lat lon) :
    create_tower s (some ⟨some (.val lat), some (.val lon), some uid⟩) =
      (.created ⟨s.nextTowerId, lat, lon, uid⟩,
        { s with towers := s.towers ++ [⟨s.nextTowerId, lat, lon, uid⟩],
                 nextTowerId := s.nextTowerId + 1 }) := by
  simp only [create_tower]
  rw [if_pos hrange, hu]
  simp only [if_neg hfar]

theorem create_user_no_body (s : Store) :
    create_user s none = (.missingFields, s) := rfl

theorem create_user_missing_field (s : Store) (d : UserReq)
    (h : d.first_name = none ∨ d.last_name = none ∨ d.email = none) :
    create_user s (some d) = (.missingFields, s) := by
  obtain ⟨fn, ln, em⟩ := d
  simp only at h
  rcases fn with _ | fn <;> rcases ln with _ | ln <;> rcases em with _ | em <;>
    first
      | rfl
      | simp at h

theorem create_user_dup_email (s : Store) (fn ln em : String)
    (h : s.users.any (fun u => u.email == em)) :
    create_user s (some ⟨some fn, some ln, some em⟩) = (.emailExists, s) := by
  simp only [create_user]
  rw [if_pos h]

theorem create_user_success (s : Store) (fn ln em : String)
    (h : ¬ s.users.any (fun u => u.email == em)) :
    create_user s (some ⟨some fn, some ln, some em⟩) =
      (.created ⟨s.nextUserId, fn, ln, em⟩,
        { s with users := s.users ++ [⟨s.nextUserId, fn, ln, em⟩],
                 nextUserId := s.nextUserId + 1 }) := by
  simp only [create_user]
  rw [if_neg h]

/-! ## The store invariant and its preservation -/

theorem inv_empty : Inv Store.empty := by
  constructor <;> simp [Store.empty]

theorem inv_create_user (s : Store) (d : Option UserReq) (hs : Inv s) :
    Inv (create_user s d).2 := by
  rcases d with _ | ⟨fn, ln, em⟩
  · rw [create_user_no_body]; exact hs
  rcases fn with _ | fn
  · rw [create_user_missing_field s _ (by simp)]; exact hs
  rcases ln with _ | ln
  · rw [create_user_missing_field s _ (by simp)]; exact hs
  rcases em with _ | em
  · rw [create_user_missing_field s _ (by simp)]; exact hs
  by_cases hdup : s.users.any (fun u => u.email == em)
  · rw [create_user_dup_email s _ _ _ hdup]; exact hs
  rw [create_user_success s _ _ _ hdup]
  refine ⟨hs.towers_sep, ?_, hs.tower_ids_lt, ?_, hs.tower_ids_mono, ?_⟩
  · intro u hu
    rcases List.mem_append.1 hu with hu | hu
    · exact Nat.lt_succ_of_lt (hs.user_ids_lt u hu)
    · simp only [List.mem_singleton] at hu
      subst hu
      exact Nat.lt_succ_self _
  · refine List.pairwise_append.2 ⟨hs.user_ids_mono, List.pairwise_singleton _ _, ?_⟩
    intro a ha b hb
    simp only [List.mem_singleton] at hb
    subst hb
    exact hs.user_ids_lt a ha
  · intro t ht
    obtain ⟨u, hu, hid⟩ := hs.towers_ref t ht
    exact ⟨u, List.mem_append_left _ hu, hid⟩

theorem inv_create_tower (s : Store) (d : Option TowerReq) (hs : Inv s) :
    Inv (create_tower s d).2 := by
  rcases d with _ | ⟨la, lo, ui⟩
  · rw [create_tower_no_body]; exact hs
  rcases la with _ | la
  · rw [create_tower_missing_field s _ (by simp)]; exact hs
  rcases lo with _ | lo
  · rw [create_tower_missing_field s _ (by simp)]; exact hs
  rcases ui with _ | ui
  · rw [create_tower_missing_field s _ (by simp)]; exact hs
  rcases la with la | _
  swap
  · rw [create_tower_unparseable s _ _ _ (by simp)]; exact hs
  rcases lo with lo | _
  swap
  · rw [create_tower_unparseable s _ _ _ (by simp)]; exact hs
  by_cases hrange : (-90 ≤ la ∧ la ≤ 90) ∧ (-180 ≤ lo ∧ lo ≤ 180)
  swap
  · rw [create_tower_out_of_range s _ _ _ hrange]; exact hs
  cases hu : s.users.find? (fun u => u.id == ui) with
  | none => rw [create_tower_user_missing s _ _ _ hrange hu]; exact hs
  | some u =>
    by_cases hclose : anyTowerWithin1km s.towers la lo
    · rw [create_tower_conflict s _ _ _ u hrange hu hclose]; exact hs
    rw [create_tower_success s _ _ _ u hrange hu hclose]
    have hfar : ∀ t ∈ s.towers, ¬ haversine t.latitude t.longitude la lo < 1 := by
      intro t ht hlt
      exact hclose ((anyTowerWithin1km_iff s.towers la lo).2 ⟨t, ht, hlt⟩)
    refine ⟨?_, hs.user_ids_lt, ?_, hs.user_ids_mono, ?_, ?_⟩
    · refine List.pairwise_append.2 ⟨hs.towers_sep, List.pairwise_singleton _ _, ?_⟩
      intro a ha b hb
      simp only [List.mem_singleton] at hb
      subst hb
      exact hfar a ha
    · intro t ht
      rcases List.mem_append.1 ht with ht | ht
      · exact Nat.lt_succ_of_lt (hs.tower_ids_lt t ht)
      · simp only [List.mem_singleton] at ht
        subst ht
        exact Nat.lt_succ_self _
    · refine List.pairwise_append.2 ⟨hs.tower_ids_mono, List.pairwise_singleton _ _, ?_⟩
      intro a ha b hb
      simp only [List.mem_singleton] at hb
      subst hb
      exact hs.tower_ids_lt a ha
    · intro t ht
      rcases List.mem_append.1 ht with ht | ht
      · exact hs.towers_ref t ht
      · simp only [List.mem_singleton] at ht
        subst ht
        have hmem := List.mem_of_find?_eq_some hu
        have hpred := List.find?_some hu
        simp only [beq_iff_eq] at hpred
        exact ⟨u, hmem, hpred⟩

theorem reachable_inv (s : Store) (h : Reachable s) : Inv s := by
  induction h with
  | init => exact inv_empty
  | step_user s d _ ih => exact inv_create_user s d ih
  | step_tower s d _ ih => exact inv_create_tower s d ih

/-! ## Reachability of the concrete states -/

theorem reach_store1 : Reachable store1 := by
  have h := Reachable.step_user Store.empty
    (some ⟨some "Ada", some "Lovelace", some "ada@example.com"⟩) Reachable.init
  rwa [create_user_success Store.empty _ _ _ (by simp [Store.empty])] at h

theorem reach_store2 : Reachable store2 := by
  have h := Reachable.step_tower store1
    (some ⟨some (.val 0), some (.val 0), some 1⟩) reach_store1
  rwa [create_tower_success store1 0 0 1 userA (by norm_num) rfl
    (fun hc => hc)] at h

theorem store2_far : ¬ anyTowerWithin1km store2.towers 0 180 := by
  intro h
  rw [show store2.towers = [towerA] from rfl] at h
  rcases h with hlt | h
  · have : ¬ haversine 0 0 0 180 < 1 := not_lt.2 haversine_antipodal_ge_one
    exact this hlt
  · exact h

theorem reach_store3 : Reachable store3 := by
  have h := Reachable.step_tower store2
    (some ⟨some (.val 0), some (.val 180), some 1⟩) reach_store2
  rwa [create_tower_success store2 0 180 1 userA (by norm_num) rfl store2_far] at h

/-! ## Fetch-by-id unfolding helpers -/

theorem get_tower_ok_of_find (s : Store) (i : Nat) (t : Tower)
    (h : s.towers.find? (fun x => x.id == i) = some t) :
    get_tower s i = .ok t := by
  unfold get_tower
  rw [h]

theorem get_tower_notFound_of_find (s : Store) (i : Nat)
    (h : s.towers.find? (fun x => x.id == i) = none) :
    get_tower s i = .notFound := by
  unfold get_tower
  rw [h]

theorem get_user_ok_of_find (s : Store) (i : Nat) (u : User)
    (h : s.users.find? (fun x => x.id == i) = some u) :
    get_user s i = .ok u := by
  unfold get_user
  rw [h]

theorem get_user_notFound_of_find (s : Store) (i : Nat)
    (h : s.users.find? (fun x => x.id == i) = none) :
    get_user s i = .notFound := by
  unfold get_user
  rw [h]

/-! ## The claims -/

/-- C2: for all real inputs, the implemented `haversine` equals the
specification's reference definition (radians conversion, `dlat`, `dlon`,
`a`, `c = 2·asin(√a)`, `distance = 6371·c`); both sides are total
functions on `ℝ⁴` by construction. -/
theorem haversine_matches_spec (lat1 lon1 lat2 lon2 : ℝ) :
    haversine lat1 lon1 lat2 lon2 = haversine_spec lat1 lon1 lat2 lon2 := by
  unfold haversine haversine_spec
  ring

/-- C8: `haversine p p = 0` for every point `p`, `haversine` is symmetric,
and the fixture `haversine 0 0 0 1` lies within `0.5` km of `111.19` km. -/
theorem haversine_algebraic_properties :
    (∀ lat lon : ℝ, haversine lat lon lat lon = 0) ∧
    (∀ lat1 lon1 lat2 lon2 : ℝ,
      haversine lat1 lon1 lat2 lon2 = haversine lat2 lon2 lat1 lon1) ∧
    |haversine 0 0 0 1 - 111.19| ≤ 0.5 := by
  refine ⟨haversine_self, haversine_comm, ?_⟩
  rw [haversine_fixture_value]
  have h1 := Real.pi_gt_d6
  have h2 := Real.pi_lt_d2
  rw [abs_le]
  constructor <;> nlinarith

/-- C1: in every store reachable by create operations from the empty
store, no two distinct towers are at haversine distance below `1.0` km;
`create_tower` preserves this because it rejects candidates within
`1.0` km of any existing tower. -/
theorem towers_min_separation (s : Store) (h : Reachable s) :
    ∀ t1 ∈ s.towers, ∀ t2 ∈ s.towers, t1 ≠ t2 →
      ¬ haversine t1.latitude t1.longitude t2.latitude t2.longitude < 1 := by
  have hp := (reachable_inv s h).towers_sep
  have hsymm : Symmetric (fun a b : Tower =>
      ¬ haversine a.latitude a.longitude b.latitude b.longitude < 1) := by
    intro a b hab
    rw [haversine_comm]
    exact hab
  intro t1 h1 t2 h2 hne
  exact hp.forall hsymm h1 h2 hne

/-- Witness for C1 at the concrete reachable two-tower store `store3`. -/
theorem towers_min_separation_witness :
    ¬ haversine towerA.latitude towerA.longitude
        towerB.latitude towerB.longitude < 1 :=
  towers_min_separation store3 reach_store3 towerA (by simp [store3])
    towerB (by simp [store3]) (by simp [towerA, towerB])

/-- C9: in every reachable store, user ids and tower ids are each strictly
increasing in creation order (hence pairwise distinct, never reused, and
every newly assigned id exceeds all earlier ids of that type). -/
theorem ids_unique_and_monotone (s : Store) (h : Reachable s) :
    ((s.users.map User.id).Pairwise (· < ·) ∧ (s.users.map User.id).Nodup) ∧
    ((s.towers.map Tower.id).Pairwise (· < ·) ∧ (s.towers.map Tower.id).Nodup) := by
  have hi := reachable_inv s h
  have hu : (s.users.map User.id).Pairwise (· < ·) :=
    (List.pairwise_map).2 hi.user_ids_mono
  have ht : (s.towers.map Tower.id).Pairwise (· < ·) :=
    (List.pairwise_map).2 hi.tower_ids_mono
  exact ⟨⟨hu, hu.imp Nat.ne_of_lt⟩, ⟨ht, ht.imp Nat.ne_of_lt⟩⟩

/-- Witness for C9 at the concrete reachable store `store3`. -/
theorem ids_unique_and_monotone_witness :
    ((store3.users.map User.id).Pairwise (· < ·) ∧
      (store3.users.map User.id).Nodup) ∧
    ((store3.towers.map Tower.id).Pairwise (· < ·) ∧
      (store3.towers.map Tower.id).Nodup) :=
  ids_unique_and_monotone store3 reach_store3

/-- C10: whenever `POST /towers` or `POST /users` answers with status 400
or 404, the store is unchanged: every error branch returns before any row
is added. -/
theorem error_leaves_store_unchanged (s : Store) :
    (∀ d : Option TowerReq,
      (create_tower s d).1.status = 400 ∨ (create_tower s d).1.status = 404 →
      (create_tower s d).2 = s) ∧
    (∀ d : Option UserReq,
      (create_user s d).1.status = 400 →
      (create_user s d).2 = s) := by
  constructor
  · intro d hd
    rcases d with _ | ⟨la, lo, ui⟩
    · rfl
    rcases la with _ | la
    · rw [create_tower_missing_field s _ (by simp)]
    rcases lo with _ | lo
    · rw [create_tower_missing_field s _ (by simp)]
    rcases ui with _ | ui
    · rw [create_tower_missing_field s _ (by simp)]
    rcases la with la | _
    swap
    · rw [create_tower_unparseable s _ _ _ (by simp)]
    rcases lo with lo | _
    swap
    · rw [create_tower_unparseable s _ _ _ (by simp)]
    by_cases hrange : (-90 ≤ la ∧ la ≤ 90) ∧ (-180 ≤ lo ∧ lo ≤ 180)
    swap
    · rw [create_tower_out_of_range s _ _ _ hrange]
    cases hu : s.users.find? (fun u => u.id == ui) with
    | none => rw [create_tower_user_missing s _ _ _ hrange hu]
    | some u =>
      by_cases hclose : anyTowerWithin1km s.towers la lo
      · rw [create_tower_conflict s _ _ _ u hrange hu hclose]
      · rw [create_tower_success s _ _ _ u hrange hu hclose] at hd
        simp [CTResp.status] at hd
  · intro d hd
    rcases d with _ | ⟨fn, ln, em⟩
    · rfl
    rcases fn with _ | fn
    · rw [create_user_missing_field s _ (by simp)]
    rcases ln with _ | ln
    · rw [create_user_missing_field s _ (by simp)]
    rcases em with _ | em
    · rw [create_user_missing_field s _ (by simp)]
    by_cases hdup : s.users.any (fun u => u.email == em)
    · rw [create_user_dup_email s _ _ _ hdup]
    · rw [create_user_success s _ _ _ hdup] at hd
      simp [CUResp.status] at hd

/-- Witness for C10: bodiless requests get status 400 and leave the
concrete store `store3` unchanged. -/
theorem error_leaves_store_unchanged_witness :
    (create_tower store3 none).1.status = 400 ∧
    (create_tower store3 none).2 = store3 ∧
    (create_user store3 none).1.status = 400 ∧
    (create_user store3 none).2 = store3 :=
  ⟨rfl, (error_leaves_store_unchanged store3).1 none (Or.inl rfl), rfl,
    (error_leaves_store_unchanged store3).2 none rfl⟩

/-- C3: failure classification and check order for `POST /towers`:
missing body/fields give 400; then unparseable or out-of-range
coordinates give 400; then an unknown `user_id` gives 404 (decided before
the proximity check, so it wins even when a proximity violation is also
present); then a tower within 1 km — in particular one at the exact same
coordinates — gives the 400 conflict. -/
theorem create_tower_error_contract (s : Store) (d : TowerReq) :
    ((create_tower s none).1.status = 400) ∧
    ((d.latitude = none ∨ d.longitude = none ∨ d.user_id = none) →
      (create_tower s (some d)).1 = .missingFields ∧
      (create_tower s (some d)).1.status = 400) ∧
    (∀ latIn lonIn uid,
      d = ⟨some latIn, some lonIn, some uid⟩ →
      (latIn = .unparseable ∨ lonIn = .unparseable) →
      (create_tower s (some d)).1 = .notNumbers ∧
      (create_tower s (some d)).1.status = 400) ∧
    (∀ lat lon uid,
      d = ⟨some (.val lat), some (.val lon), some uid⟩ →
      ¬ ((-90 ≤ lat ∧ lat ≤ 90) ∧ (-180 ≤ lon ∧ lon ≤ 180)) →
      (create_tower s (some d)).1 = .invalidCoords ∧
      (create_tower s (some d)).1.status = 400) ∧
    (∀ lat lon uid,
      d = ⟨some (.val lat), some (.val lon), some uid⟩ →
      ((-90 ≤ lat ∧ lat ≤ 90) ∧ (-180 ≤ lon ∧ lon ≤ 180)) →
      (∀ u ∈ s.users, u.id ≠ uid) →
      (create_tower s (some d)).1 = .userNotFound ∧
      (create_tower s (some d)).1.status = 404) ∧
    (∀ lat lon uid,
      d = ⟨some (.val lat), some (.val lon), some uid⟩ →
      ((-90 ≤ lat ∧ lat ≤ 90) ∧ (-180 ≤ lon ∧ lon ≤ 180)) →
      (∃ u ∈ s.users, u.id = uid) →
      anyTowerWithin1km s.towers lat lon →
      (create_tower s (some d)).1 = .conflict ∧
      (create_tower s (some d)).1.status = 400) := by
  refine ⟨rfl, ?_, ?_, ?_, ?_, ?_⟩
  · intro h
    rw [create_tower_missing_field s d h]
    exact ⟨rfl, rfl⟩
  · rintro latIn lonIn uid rfl h
    rw [create_tower_unparseable s latIn lonIn uid h]
    exact ⟨rfl, rfl⟩
  · rintro lat lon uid rfl h
    rw [create_tower_out_of_range s lat lon uid h]
    exact ⟨rfl, rfl⟩
  · rintro lat lon uid rfl hrange hnone
    have hfind : s.users.find? (fun u => u.id == uid) = none := by
      rw [List.find?_eq_none]
      intro u hu
      simpa using hnone u hu
    rw [create_tower_user_missing s lat lon uid hrange hfind]
    exact ⟨rfl, rfl⟩
  · rintro lat lon uid rfl hrange ⟨u, hu, hid⟩ hclose
    have hsome : (s.users.find? (fun v => v.id == uid)).isSome := by
      rw [List.find?_isSome]
      exact ⟨u, hu, by simpa using hid⟩
    obtain ⟨u', hu'⟩ := Option.isSome_iff_exists.1 hsome
    rw [create_tower_conflict s lat lon uid u' hrange hu' hclose]
    exact ⟨rfl, rfl⟩

/-- Witness for C3 at `store3`: an unknown `user_id` answers 404 even
though the candidate point also violates proximity, and a candidate at the
exact coordinates of `towerA` for a known user answers the 400 conflict. -/
theorem create_tower_error_contract_witness :
    ((create_tower store3 (some ⟨some (.val 0), some (.val 0), some 99⟩)).1 =
        .userNotFound ∧
      (create_tower store3 (some ⟨some (.val 0), some (.val 0), some 99⟩)).1.status =
        404) ∧
    ((create_tower store3 (some ⟨some (.val 0), some (.val 0), some 1⟩)).1 =
        .conflict ∧
      (create_tower store3 (some ⟨some (.val 0), some (.val 0), some 1⟩)).1.status =
        400) := by
  have h00 : haversine 0 0 0 0 < 1 := by
    rw [haversine_self]
    norm_num
  have hclose : anyTowerWithin1km store3.towers 0 0 := Or.inl h00
  constructor
  · exact (create_tower_error_contract store3
      ⟨some (.val 0), some (.val 0), some 99⟩).2.2.2.2.1 0 0 99 rfl
      (by norm_num)
      (by
        intro u hu
        simp [store3, userA] at hu
        subst hu
        decide)
  · exact (create_tower_error_contract store3
      ⟨some (.val 0), some (.val 0), some 1⟩).2.2.2.2.2 0 0 1 rfl
      (by norm_num) ⟨userA, by simp [store3], rfl⟩ hclose

/-- C4: a `POST /towers` request with in-range numeric coordinates, an
existing user, and a candidate at haversine distance at least 1 km from
every stored tower succeeds: the new tower is persisted with the next id,
the response is 201 carrying it, and it is retrievable by
`GET /towers/{id}`. -/
theorem create_tower_success_contract (s : Store) (lat lon : ℝ) (uid : Nat)
    (hreach : Reachable s)
    (hlat : -90 ≤ lat ∧ lat ≤ 90) (hlon : -180 ≤ lon ∧ lon ≤ 180)
    (huser : ∃ u ∈ s.users, u.id = uid)
    (hfar : ∀ t ∈ s.towers, 1 ≤ haversine t.latitude t.longitude lat lon) :
    (create_tower s (some ⟨some (.val lat), some (.val lon), some uid⟩)).1 =
      .created ⟨s.nextTowerId, lat, lon, uid⟩ ∧
    (create_tower s (some ⟨some (.val lat), some (.val lon), some uid⟩)).1.status =
      201 ∧
    (create_tower s (some ⟨some (.val lat), some (.val lon), some uid⟩)).2.towers =
      s.towers ++ [⟨s.nextTowerId, lat, lon, uid⟩] ∧
    get_tower (create_tower s (some ⟨some (.val lat), some (.val lon), some uid⟩)).2
      s.nextTowerId = .ok ⟨s.nextTowerId, lat, lon, uid⟩ := by
  obtain ⟨u, hu, hid⟩ := huser
  have hsome : (s.users.find? (fun v => v.id == uid)).isSome := by
    rw [List.find?_isSome]
    exact ⟨u, hu, by simpa using hid⟩
  obtain ⟨u', hu'⟩ := Option.isSome_iff_exists.1 hsome
  have hnc : ¬ anyTowerWithin1km s.towers lat lon := by
    rw [anyTowerWithin1km_iff]
    rintro ⟨t, ht, hlt⟩
    exact absurd hlt (not_lt.2 (hfar t ht))
  rw [create_tower_success s lat lon uid u' ⟨hlat, hlon⟩ hu' hnc]
  refine ⟨rfl, rfl, rfl, ?_⟩
  apply get_tower_ok_of_find
  show (s.towers ++ [(⟨s.nextTowerId, lat, lon, uid⟩ : Tower)]).find?
    (fun x => x.id == s.nextTowerId) = some ⟨s.nextTowerId, lat, lon, uid⟩
  have hids := (reachable_inv s hreach).tower_ids_lt
  have hnonef : s.towers.find? (fun x => x.id == s.nextTowerId) = none := by
    rw [List.find?_eq_none]
    intro t ht
    simp only [beq_iff_eq]
    exact Nat.ne_of_lt (hids t ht)
  rw [List.find?_append, hnonef, Option.none_or]
  simp [List.find?]

/-- Witness for C4: creating the first tower at the origin for the
existing user of `store1` succeeds and is retrievable. -/
theorem create_tower_success_contract_witness :
    (create_tower store1 (some ⟨some (.val 0), some (.val 0), some 1⟩)).1 =
      .created ⟨store1.nextTowerId, 0, 0, 1⟩ ∧
    (create_tower store1 (some ⟨some (.val 0), some (.val 0), some 1⟩)).1.status =
      201 ∧
    (create_tower store1 (some ⟨some (.val 0), some (.val 0), some 1⟩)).2.towers =
      store1.towers ++ [⟨store1.nextTowerId, 0, 0, 1⟩] ∧
    get_tower (create_tower store1 (some ⟨some (.val 0), some (.val 0), some 1⟩)).2
      store1.nextTowerId = .ok ⟨store1.nextTowerId, 0, 0, 1⟩ :=
  create_tower_success_contract store1 0 0 1 reach_store1 (by norm_num) (by norm_num)
    ⟨userA, by simp [store1], rfl⟩
    (by
      intro t ht
      simp [store1] at ht)

/-- C5: classification for `POST /users`: missing body or fields give
400; a duplicate email (exact, case-sensitive string match) gives the 400
conflict; otherwise the user is persisted with the next id, answered with
201, and retrievable via `GET /users/{id}`. -/
theorem create_user_contract (s : Store) (d : UserReq) (hreach : Reachable s) :
    ((create_user s none).1.status = 400) ∧
    ((d.first_name = none ∨ d.last_name = none ∨ d.email = none) →
      (create_user s (some d)).1 = .missingFields ∧
      (create_user s (some d)).1.status = 400) ∧
    (∀ fn ln em,
      d = ⟨some fn, some ln, some em⟩ →
      (∃ u ∈ s.users, u.email = em) →
      (create_user s (some d)).1 = .emailExists ∧
      (create_user s (some d)).1.status = 400) ∧
    (∀ fn ln em,
      d = ⟨some fn, some ln, some em⟩ →
      (∀ u ∈ s.users, u.email ≠ em) →
      (create_user s (some d)).1 = .created ⟨s.nextUserId, fn, ln, em⟩ ∧
      (create_user s (some d)).1.status = 201 ∧
      (create_user s (some d)).2.users = s.users ++ [⟨s.nextUserId, fn, ln, em⟩] ∧
      get_user (create_user s (some d)).2 s.nextUserId =
        .ok ⟨s.nextUserId, fn, ln, em⟩) := by
  refine ⟨rfl, ?_, ?_, ?_⟩
  · intro h
    rw [create_user_missing_field s d h]
    exact ⟨rfl, rfl⟩
  · rintro fn ln em rfl ⟨u, hu, hem⟩
    have hdup : s.users.any (fun u => u.email == em) := by
      rw [List.any_eq_true]
      exact ⟨u, hu, by simpa using hem⟩
    rw [create_user_dup_email s fn ln em hdup]
    exact ⟨rfl, rfl⟩
  · rintro fn ln em rfl hnew
    have hdup : ¬ s.users.any (fun u => u.email == em) := by
      rw [List.any_eq_true]
      rintro ⟨u, hu, hem⟩
      exact hnew u hu (by simpa using hem)
    rw [create_user_success s fn ln em hdup]
    refine ⟨rfl, rfl, rfl, ?_⟩
    apply get_user_ok_of_find
    show (s.users ++ [(⟨s.nextUserId, fn, ln, em⟩ : User)]).find?
      (fun x => x.id == s.nextUserId) = some ⟨s.nextUserId, fn, ln, em⟩
    have hids := (reachable_inv s hreach).user_ids_lt
    have hnonef : s.users.find? (fun x => x.id == s.nextUserId) = none := by
      rw [List.find?_eq_none]
      intro u hu
      simp only [beq_iff_eq]
      exact Nat.ne_of_lt (hids u hu)
    rw [List.find?_append, hnonef, Option.none_or]
    simp [List.find?]

/-- Witness for C5: creating the first user on the empty store succeeds
with id 1 and is retrievable. -/
theorem create_user_contract_witness :
    (create_user Store.empty
        (some ⟨some "Ada", some "Lovelace", some "ada@example.com"⟩)).1 =
      .created ⟨Store.empty.nextUserId, "Ada", "Lovelace", "ada@example.com"⟩ ∧
    (create_user Store.empty
        (some ⟨some "Ada", some "Lovelace", some "ada@example.com"⟩)).1.status = 201 ∧
    (create_user Store.empty
        (some ⟨some "Ada", some "Lovelace", some "ada@example.com"⟩)).2.users =
      Store.empty.users ++ [⟨Store.empty.nextUserId, "Ada", "Lovelace", "ada@example.com"⟩] ∧
    get_user (create_user Store.empty
        (some ⟨some "Ada", some "Lovelace", some "ada@example.com"⟩)).2
      Store.empty.nextUserId =
      .ok ⟨Store.empty.nextUserId, "Ada", "Lovelace", "ada@example.com"⟩ :=
  (create_user_contract Store.empty
    ⟨some "Ada", some "Lovelace", some "ada@example.com"⟩ Reachable.init).2.2.2
    "Ada" "Lovelace" "ada@example.com" rfl
    (by
      intro u hu
      simp [Store.empty] at hu)

/-- C6: `GET /users/{id}/towers` always answers 200 with exactly the
stored towers whose `user_id` is `{id}`; the array is empty when the user
owns no towers and also when no such user exists. -/
theorem towers_by_user_contract (s : Store) (uid : Nat) (h : Reachable s) :
    (get_towers_by_user_id s uid).2 = 200 ∧
    (∀ t, t ∈ (get_towers_by_user_id s uid).1 ↔ t ∈ s.towers ∧ t.user_id = uid) ∧
    ((∀ u ∈ s.users, u.id ≠ uid) → (get_towers_by_user_id s uid).1 = []) ∧
    ((∀ t ∈ s.towers, t.user_id ≠ uid) → (get_towers_by_user_id s uid).1 = []) := by
  refine ⟨rfl, ?_, ?_, ?_⟩
  · intro t
    simp [get_towers_by_user_id, List.mem_filter]
  · intro hnouser
    have href := (reachable_inv s h).towers_ref
    simp only [get_towers_by_user_id]
    rw [List.filter_eq_nil_iff]
    intro t ht
    simp only [beq_iff_eq]
    intro heq
    obtain ⟨u, hu, hid⟩ := href t ht
    exact hnouser u hu (by rw [hid, heq])
  · intro hnone
    simp only [get_towers_by_user_id]
    rw [List.filter_eq_nil_iff]
    intro t ht
    simp only [beq_iff_eq]
    exact hnone t ht

/-- Witness for C6 at `store3`: user 1 owns `towerA`, and the listing for
the nonexistent user 99 is empty. -/
theorem towers_by_user_contract_witness :
    (get_towers_by_user_id store3 1).2 = 200 ∧
    towerA ∈ (get_towers_by_user_id store3 1).1 ∧
    (get_towers_by_user_id store3 99).1 = [] :=
  ⟨(towers_by_user_contract store3 1 reach_store3).1,
    ((towers_by_user_contract store3 1 reach_store3).2.1 towerA).2
      ⟨by simp [store3], rfl⟩,
    (towers_by_user_contract store3 99 reach_store3).2.2.1
      (by
        intro u hu
        simp [store3, userA] at hu
        subst hu
        decide)⟩

/-- C7: fetch-by-id answers 200 with the matching row when the id exists
and 404 otherwise, for both `GET /towers/{id}` and `GET /users/{id}`. -/
theorem fetch_by_id_contract (s : Store) (i : Nat) :
    ((∃ t ∈ s.towers, t.id = i) →
      ∃ t ∈ s.towers, t.id = i ∧ get_tower s i = .ok t ∧
        (get_tower s i).status = 200) ∧
    ((∀ t ∈ s.towers, t.id ≠ i) →
      get_tower s i = .notFound ∧ (get_tower s i).status = 404) ∧
    ((∃ u ∈ s.users, u.id = i) →
      ∃ u ∈ s.users, u.id = i ∧ get_user s i = .ok u ∧
        (get_user s i).status = 200) ∧
    ((∀ u ∈ s.users, u.id ≠ i) →
      get_user s i = .notFound ∧ (get_user s i).status = 404) := by
  refine ⟨?_, ?_, ?_, ?_⟩
  · rintro ⟨t, ht, hid⟩
    have hsome : (s.towers.find? (fun x => x.id == i)).isSome := by
      rw [List.find?_isSome]
      exact ⟨t, ht, by simpa using hid⟩
    obtain ⟨t', ht'⟩ := Option.isSome_iff_exists.1 hsome
    have hmem := List.mem_of_find?_eq_some ht'
    have hpred := List.find?_some ht'
    simp only [beq_iff_eq] at hpred
    have hok := get_tower_ok_of_find s i t' ht'
    exact ⟨t', hmem, hpred, hok, by rw [hok]; rfl⟩
  · intro hno
    have hnone : s.towers.find? (fun x => x.id == i) = none := by
      rw [List.find?_eq_none]
      intro t ht
      simpa using hno t ht
    have hnf := get_tower_notFound_of_find s i hnone
    exact ⟨hnf, by rw [hnf]; rfl⟩
  · rintro ⟨u, hu, hid⟩
    have hsome : (s.users.find? (fun x => x.id == i)).isSome := by
      rw [List.find?_isSome]
      exact ⟨u, hu, by simpa using hid⟩
    obtain ⟨u', hu'⟩ := Option.isSome_iff_exists.1 hsome
    have hmem := List.mem_of_find?_eq_some hu'
    have hpred := List.find?_some hu'
    simp only [beq_iff_eq] at hpred
    have hok := get_user_ok_of_find s i u' hu'
    exact ⟨u', hmem, hpred, hok, by rw [hok]; rfl⟩
  · intro hno
    have hnone : s.users.find? (fun x => x.id == i) = none := by
      rw [List.find?_eq_none]
      intro u hu
      simpa using hno u hu
    have hnf := get_user_notFound_of_find s i hnone
    exact ⟨hnf, by rw [hnf]; rfl⟩

/-- Witness for C7 at `store3`: tower 2 is found with status 200, and the
missing user 99 answers 404. -/
theorem fetch_by_id_contract_witness :
    (∃ t ∈ store3.towers, t.id = 2 ∧ get_tower store3 2 = .ok t ∧
      (get_tower store3 2).status = 200) ∧
    (get_user store3 99 = .notFound ∧ (get_user store3 99).status = 404) :=
  ⟨(fetch_by_id_contract store3 2).1 ⟨towerB, by simp [store3], rfl⟩,
    (fetch_by_id_contract store3 99).2.2.2
      (by
        intro u hu
        simp [store3, userA] at hu
        subst hu
        decide)⟩

end EmpireAPI
